import Mathlib

/-!
Verification of the weekly "TOP ENGAGED" rotation bot (src/main.py).

The embedding below translates, statement by statement, the parts of
src/main.py that the claims concern:

* the SQLite data model created by init_db (src/main.py:55-93);
* the truncated cycle-close entry point calculate_and_announce_top_engaged
  (src/main.py:151-170);
* demote_old_top_engaged (src/main.py:173-429), which contains the demote
  phase, the counter snapshot, the announcement/promotion block, and the
  persistence sequence (history upsert, marker write, counter reset,
  notifications);
* the scheduler loop body of schedule_top_engaged_task (src/main.py:439-499);
* the message counter handler message_counter (src/main.py:809-840).

Side effects against Telegram are recorded as an explicit event trace;
database state is a record of the four tables.  Python exceptions that
escape a function are modelled with an explicit error field.
-/

namespace TopBot

/-! ### String and number helpers (models of the Python primitives used) -/

/-- Uppercase an ASCII letter, as Python str.upper does on ASCII input
(only ASCII matters for the "TOP ENGAGED" title test). -/
def charUpper (c : Char) : Char :=
  if 97 ≤ c.toNat ∧ c.toNat ≤ 122 then Char.ofNat (c.toNat - 32) else c

/-- Containment of one character list in another, as Python `needle in hay`. -/
def listContainsSub (needle : List Char) : List Char → Bool
  | [] => needle.isEmpty
  | c :: rest => needle.isPrefixOf (c :: rest) || listContainsSub needle rest

/-- Value of a decimal digit character, none for other characters. -/
def digitVal? (c : Char) : Option Nat :=
  if 48 ≤ c.toNat ∧ c.toNat ≤ 57 then some (c.toNat - 48) else none

/-- Helper for decimal parsing: fold digits onto an accumulator. -/
def digitsToNatAux : List Char → Nat → Option Nat
  | [], acc => some acc
  | c :: cs, acc =>
    match digitVal? c with
    | none => none
    | some d => digitsToNatAux cs (acc * 10 + d)

/-- Parse a non-empty all-digit character list as a natural number
(model of the digit-field parsing done by datetime.strptime). -/
def digitsToNat? : List Char → Option Nat
  | [] => none
  | c :: cs => digitsToNatAux (c :: cs) 0

/-- Parse an optionally-signed decimal integer, as Python int(...) inside
get_group_chat_id (src/main.py:134); a ValueError yields None there. -/
def strToInt? (s : String) : Option Int :=
  match s.data with
  | '-' :: cs => (digitsToNat? cs).map (fun n => -(n : Int))
  | cs => (digitsToNat? cs).map (fun n => (n : Int))

/-- Split a character list on the '-' separator, as the date format
"%Y-%m-%d" splits its three fields. -/
def splitDash : List Char → List (List Char)
  | [] => [[]]
  | c :: cs =>
    if c = '-' then [] :: splitDash cs
    else
      match splitDash cs with
      | [] => [[c]]
      | g :: gs => (c :: g) :: gs

/-! ### Calendar arithmetic

The scheduler works with dates in a fixed zone.  A calendar date is
represented by its proleptic Gregorian day number, with day 0 being
0001-01-01, which is a Monday; hence weekday dayNum = dayNum % 7 agrees
with Python datetime.weekday() (Monday = 0 ... Sunday = 6). -/

/-- Gregorian leap-year test. -/
def isLeap (y : Nat) : Bool :=
  (y % 4 == 0 && y % 100 != 0) || y % 400 == 0

/-- Days in a month of a given year. -/
def daysInMonth (y m : Nat) : Nat :=
  if m = 2 then (if isLeap y then 29 else 28)
  else if m = 4 ∨ m = 6 ∨ m = 9 ∨ m = 11 then 30
  else 31

/-- Days elapsed in year y before month m begins. -/
def daysBeforeMonth (y m : Nat) : Nat :=
  (List.range (m - 1)).foldl (fun acc i => acc + daysInMonth y (i + 1)) 0

/-- Proleptic Gregorian day number of a date (0 = 0001-01-01).
For y ≥ 1 the subtraction never truncates: (y-1)/4 ≥ (y-1)/100. -/
def dayNumber (y m d : Nat) : Nat :=
  365 * (y - 1) + (y - 1) / 4 - (y - 1) / 100 + (y - 1) / 400
    + daysBeforeMonth y m + (d - 1)

/-- Weekday with Monday = 0, as Python datetime.weekday(). -/
def weekday (dayNum : Nat) : Nat := dayNum % 7

/-- Parse a "%Y-%m-%d" date string to a day number, none when the string
does not parse: model of datetime.strptime(s, "%Y-%m-%d") at
src/main.py:450, whose ValueError branch (451-453) yields None. -/
def parseDateYMD (s : String) : Option Nat :=
  match splitDash s.data with
  | [ys, ms, ds] =>
    match digitsToNat? ys, digitsToNat? ms, digitsToNat? ds with
    | some y, some m, some d =>
      if 1 ≤ y ∧ y ≤ 9999 ∧ 1 ≤ m ∧ m ≤ 12 ∧ 1 ≤ d ∧ d ≤ daysInMonth y m
      then some (dayNumber y m d)
      else none
    | _, _, _ => none
  | _ => none

/-! ### Data model: the four SQLite tables created by init_db (src/main.py:62-91) -/

/-- One row of message_counts (src/main.py:62-69): user_id INTEGER PRIMARY KEY,
message_count INTEGER DEFAULT 0, username TEXT, full_name TEXT. -/
structure CounterRow where
  user_id : Int
  message_count : Nat
  username : Option String
  full_name : Option String
deriving DecidableEq, Repr

/-- One row of top_engaged_history (src/main.py:75-85):
week_start_date TEXT PRIMARY KEY plus the three winners. -/
structure HistoryRow where
  week_start_date : String
  top_1_user_id : Option Int
  top_2_user_id : Option Int
  top_3_user_id : Option Int
  top_1_username : Option String
  top_2_username : Option String
  top_3_username : Option String
deriving DecidableEq, Repr

/-- The database: the four tables of init_db.  Table rows are kept in
storage (insertion) order. -/
structure DB where
  message_counts : List CounterRow
  deputies : List Int
  history : List HistoryRow
  settings : List (String × String)
deriving DecidableEq, Repr

/-- Look up a bot_settings value by key (setting_name TEXT PRIMARY KEY). -/
def getSetting (db : DB) (key : String) : Option String :=
  (db.settings.find? (fun p => decide (p.1 = key))).map (fun p => p.2)

/-- INSERT OR REPLACE INTO bot_settings: replace the row with this key
if present, append otherwise. -/
def setSetting (s : List (String × String)) (key v : String) : List (String × String) :=
  if s.any (fun p => decide (p.1 = key)) then
    s.map (fun p => if p.1 = key then (key, v) else p)
  else s ++ [(key, v)]

/-- get_group_chat_id (src/main.py:125-137): read the stored
main_group_chat_id and parse it as int, None on absence or ValueError. -/
def getGroupChatId (db : DB) : Option Int :=
  match getSetting db "main_group_chat_id" with
  | none => none
  | some s => strToInt? s

/-- The parsed last_announced_week_start_date marker as read by the
scheduler (src/main.py:443-453): absent or unparsable is None. -/
def lastAnnouncedDay (db : DB) : Option Nat :=
  match getSetting db "last_announced_week_start_date" with
  | none => none
  | some s => parseDateYMD s

/-! ### Telegram side effects: capability flags, call outcomes, event traces -/

/-- The nine capability flags passed to bot.promote_chat_member, in the
order they appear in the source (src/main.py:193-205, 292-304, 321-333). -/
structure PermFlags where
  can_manage_chat : Bool
  can_delete_messages : Bool
  can_manage_video_chats : Bool
  can_restrict_members : Bool
  can_promote_members : Bool
  can_change_info : Bool
  can_invite_users : Bool
  can_pin_messages : Bool
  can_post_messages : Bool
deriving DecidableEq, Repr

/-- Flags of the demote call (src/main.py:193-205): all nine False,
which demotes the member and clears the custom title. -/
def demoteFlags : PermFlags := ⟨false, false, false, false, false, false, false, false, false⟩

/-- Flags of the initial promotion of a winner (src/main.py:292-304):
only can_change_info is True. -/
def grantFlags : PermFlags := ⟨false, false, false, false, false, true, false, false, false⟩

/-- Flags of the final promote call on a winner (src/main.py:321-333):
every flag False except can_invite_users, which the source sets to True. -/
def stripFlags : PermFlags := ⟨false, false, false, false, false, false, true, false, false⟩

/-- Position-specific custom titles (src/main.py:310). -/
def titles : List String := ["TOP ENGAGED 1", "TOP ENGAGED 2", "TOP ENGAGED 3"]

/-- Outcome of a Telegram API call, matching the except clauses of the
source (TelegramForbiddenError, TelegramBadRequest, generic Exception). -/
inductive CallResult where
  | ok
  | forbidden
  | badRequest
  | otherError
deriving DecidableEq, Repr

/-- Observable side effects of a run, in execution order. -/
inductive Event where
  | getAdmins
  | promoteCall (uid : Int) (flags : PermFlags) (res : CallResult)
  | setTitle (uid : Int) (title : String)
  | pinMsg
  | snapshotTop (rows : List CounterRow)
  | announceNameError
  | historyUpsert (key : String)
  | markerWrite (value : String)
  | counterReset
  | notifyOwner
  | notifyDeputy (uid : Int)
  | cycleCloseInvoked
deriving DecidableEq, Repr

/-- Python exceptions that escape a modelled function. -/
inductive PyError where
  | nameError
deriving DecidableEq, Repr

/-- Result of running a side-effecting function: final database, emitted
event trace, and the exception that escaped, if any. -/
structure RunResult where
  db : DB
  trace : List Event
  err : Option PyError

/-- True when event a occurs at a strictly earlier position than some
occurrence of event b. -/
def occursStrictlyBefore (a b : Event) : List Event → Bool
  | [] => false
  | e :: rest =>
    if e = a then rest.any (fun x => decide (x = b))
    else if e = b then false
    else occursStrictlyBefore a b rest

/-- Events of the persistence sequence: history upsert, marker write,
counter reset, owner/deputy notifications. -/
def isPersistEvent : Event → Bool
  | .historyUpsert _ => true
  | .markerWrite _ => true
  | .counterReset => true
  | .notifyOwner => true
  | .notifyDeputy _ => true
  | _ => false

/-- Events of the winner-promotion block (src/main.py:289-347): a grant
or strip promote call, or a custom-title assignment. -/
def isWinnerPromotionEvent : Event → Bool
  | .setTitle _ _ => true
  | .pinMsg => true
  | .promoteCall _ f _ => decide (f = grantFlags) || decide (f = stripFlags)
  | _ => false

/-! ### Snapshot and ranking (src/main.py:221-223)

The cycle-close snapshot is
SELECT user_id, username, full_name, message_count FROM message_counts
ORDER BY message_count DESC LIMIT 3 — note: no filter on message_count,
unlike the read-only handler at src/main.py:599.  Rows with equal counts
are kept in storage order (a stable descending sort). -/

/-- Insert a row into a count-descending list, after all rows with a
count ≥ its own (stable placement). -/
def insertByCount (r : CounterRow) : List CounterRow → List CounterRow
  | [] => [r]
  | x :: xs =>
    if x.message_count ≤ r.message_count then r :: x :: xs
    else x :: insertByCount r xs

/-- Stable sort by message_count descending (ORDER BY message_count DESC). -/
def sortByCountDesc : List CounterRow → List CounterRow
  | [] => []
  | x :: xs => insertByCount x (sortByCountDesc xs)

/-- The snapshot top_users_data of the cycle close (src/main.py:222-223):
top three rows by count descending, zero counts not excluded. -/
def snapshotTop3 (db : DB) : List CounterRow :=
  (sortByCountDesc db.message_counts).take 3

/-! ### calculate_and_announce_top_engaged (src/main.py:151-170)

The function docstring promises calculation, announcement, count reset
and owner notification, but the body consists only of the two guard
checks; it ends at src/main.py:170.  The remaining cycle-close code
sits in demote_old_top_engaged (which no caller invokes). -/

/-- Model of calculate_and_announce_top_engaged.  dbInit models whether
the global db_cursor has been initialised. -/
def calculate_and_announce_top_engaged (dbInit : Bool) (db : DB) : DB × List Event :=
  match getGroupChatId db with
  | none => (db, [Event.notifyOwner])
  | some g =>
    if g = 0 then (db, [Event.notifyOwner])
    else if dbInit = false then (db, [])
    else (db, [])

/-! ### demote_old_top_engaged (src/main.py:173-429) -/

/-- A chat administrator as returned by bot.get_chat_administrators:
user id, full name, and the assigned custom title (may be absent). -/
structure Admin where
  user_id : Int
  full_name : String
  custom_title : Option String
deriving DecidableEq, Repr

/-- External Telegram platform behaviour relevant to the demote phase:
the administrator enumeration (error when get_chat_administrators
raises) and the per-user outcome of the demote promote_chat_member call. -/
structure TgEnv where
  admins : Except Unit (List Admin)
  demoteResult : Int → CallResult

/-- The title test of src/main.py:188:
custom_title and ("TOP ENGAGED" in custom_title.upper()). -/
def isHonoreeTitle (t : String) : Bool :=
  listContainsSub "TOP ENGAGED".data (t.data.map charUpper)

/-- An administrator whose title marks a prior-cycle honoree
(src/main.py:185-188; an empty title is falsy in Python). -/
def isHonoreeAdmin (a : Admin) : Bool :=
  match a.custom_title with
  | none => false
  | some t => !t.data.isEmpty && isHonoreeTitle t

/-- The demote call the loop body issues for one administrator, none
when the administrator is skipped (src/main.py:183-213).  The call's
exceptions are caught inside the loop body, so the loop continues with
the remaining administrators whatever the outcome. -/
def demoteEventFor (env : TgEnv) (a : Admin) : Option Event :=
  match a.custom_title with
  | none => none
  | some t =>
    if !t.data.isEmpty && isHonoreeTitle t then
      some (Event.promoteCall a.user_id demoteFlags (env.demoteResult a.user_id))
    else none

/-- The demote phase (src/main.py:179-218): enumerate administrators and
demote every honoree, one try/except per participant.  When the
enumeration itself raises, the outer except (215-218) swallows the error
and the function continues. -/
def demotePhase (env : TgEnv) : List Event :=
  match env.admins with
  | .error _ => [Event.getAdmins]
  | .ok admins => Event.getAdmins :: admins.filterMap (demoteEventFor env)

/-- Model of demote_old_top_engaged (src/main.py:173-429).  todayStr is
datetime.now(SAUDI_ARABIA_TIMEZONE).strftime("%Y-%m-%d") (src/main.py:227).

After the demote phase and the counter snapshot, the announcement block
evaluates bot.send_message(chat_id=main_group_id, ...) at
src/main.py:281-285 — but main_group_id is bound in no scope of this
function (its binding lives in calculate_and_announce_top_engaged), so a
NameError is raised.  The generic handler `except Exception as e` at
src/main.py:367 catches it, but the handler's own log call at
src/main.py:368 formats an f-string that evaluates main_group_id again,
raising a second NameError inside the except clause; nothing catches it,
so the function terminates there.  The history upsert (375-389), marker
write (391-396), counter reset (398-402) and owner/deputy notifications
(404-429) are never reached, and the database is left unchanged. -/
def demote_old_top_engaged (env : TgEnv) (db : DB) (todayStr : String) : RunResult :=
  ⟨db,
   demotePhase env ++ [Event.snapshotTop (snapshotTop3 db), Event.announceNameError],
   some PyError.nameError⟩

/-! ### The winner-promotion loop body (src/main.py:289-347)

This code sits inside the announcement try block of
demote_old_top_engaged, after the send that raises NameError, so no run
reaches it; it is embedded on its own so its calls can be inspected.
For winner number i (0-based) the body issues: promote_chat_member with
grantFlags (292-304), set_chat_administrator_custom_title with titles[i]
(312-316), then promote_chat_member with stripFlags (321-333).
Exceptions are caught per winner (336-337, 342-347). -/

/-- The three Telegram calls the promotion loop body issues for winner
number i (success path). -/
def promoteWinner (i : Nat) (uid : Int) : List Event :=
  [Event.promoteCall uid grantFlags CallResult.ok,
   Event.setTitle uid (titles.getD i ""),
   Event.promoteCall uid stripFlags CallResult.ok]

/-! ### The persistence sequence (src/main.py:374-429)

The statements following the announcement block, in source order:
history upsert (375-389), marker write (391-396), counter reset
(398-402), owner notification (404-412), deputy notifications (414-429).
In the source they live at the end of demote_old_top_engaged and are
embedded here as their own function of the history row to store. -/

/-- INSERT INTO top_engaged_history ... ON CONFLICT(week_start_date) DO
UPDATE (src/main.py:375-386): replace the row with the same
week_start_date, append when none exists. -/
def upsertHistory (h : List HistoryRow) (row : HistoryRow) : List HistoryRow :=
  if h.any (fun r => decide (r.week_start_date = row.week_start_date)) then
    h.map (fun r => if r.week_start_date = row.week_start_date then row else r)
  else h ++ [row]

/-- The persistence sequence of the cycle close (src/main.py:374-429):
upsert the history row, write last_announced_week_start_date, zero every
message count, then notify the owner and each deputy (notification
failures are caught per recipient, src/main.py:409-412 and 426-429). -/
def cycleClosePersistTail (db : DB) (row : HistoryRow) : DB × List Event :=
  let db1 : DB := ⟨db.message_counts, db.deputies, upsertHistory db.history row, db.settings⟩
  let db2 : DB := ⟨db1.message_counts, db1.deputies, db1.history,
                   setSetting db1.settings "last_announced_week_start_date" row.week_start_date⟩
  let db3 : DB := ⟨db2.message_counts.map (fun r => ⟨r.user_id, 0, r.username, r.full_name⟩),
                   db2.deputies, db2.history, db2.settings⟩
  (db3,
   [Event.historyUpsert row.week_start_date,
    Event.markerWrite row.week_start_date,
    Event.counterReset,
    Event.notifyOwner]
   ++ db.deputies.map Event.notifyDeputy)

/-! ### The scheduler loop body (src/main.py:439-499)

On every wake the loop computes now in the Riyadh zone, reads and parses
the persisted marker, computes the most recent Tuesday-00:00 boundary,
and runs calculate_and_announce_top_engaged immediately when the marker
is unset or before the boundary.

A note on the marker comparison (src/main.py:474-475): the marker is
parsed with datetime.strptime(...).replace(tzinfo=SAUDI_ARABIA_TIMEZONE),
and pytz's tzinfo for Asia/Riyadh used this way is the zone's LMT entry,
UTC+3:06:52 (11212 s), while now and current_week_start carry the proper
UTC+3:00 (10800 s) offset from datetime.now(tz).  Aware datetimes compare
as instants, so last_announced_date < current_week_start compares
markerDay*86400 - 11212 against cwsDay*86400 - 10800 in UTC seconds,
which is markerDay*86400 + 10800 < cwsDay*86400 + 11212 over naturals. -/

/-- Seconds of offset pytz attaches via replace(tzinfo=...): Asia/Riyadh LMT. -/
def lmtOffsetSec : Nat := 11212

/-- Seconds of offset of datetime.now(SAUDI_ARABIA_TIMEZONE): UTC+3. -/
def astOffsetSec : Nat := 10800

/-- days_since_last_tuesday = (now.weekday() - 1 + 7) % 7 (src/main.py:457),
written over naturals as weekday + 6 mod 7. -/
def daysSinceLastTuesday (nowDay : Nat) : Nat := (weekday nowDay + 6) % 7

/-- current_week_start (src/main.py:458): midnight of the most recent
Tuesday at or before now. -/
def currentWeekStart (nowDay : Nat) : Nat := nowDay - daysSinceLastTuesday nowDay

/-- The instant comparison last_announced_date < current_week_start
(src/main.py:475), with the mixed LMT / +03 offsets made explicit. -/
def markerBeforeCws (markerDay cwsDay : Nat) : Bool :=
  decide (markerDay * 86400 + astOffsetSec < cwsDay * 86400 + lmtOffsetSec)

/-- should_run_now (src/main.py:472-477): now has passed the current
week start and no announcement was made for this week yet. -/
def shouldRunNow (db : DB) (nowDay : Nat) : Bool :=
  decide (currentWeekStart nowDay ≤ nowDay) &&
  (match lastAnnouncedDay db with
   | none => true
   | some d => markerBeforeCws d (currentWeekStart nowDay))

/-- One scheduler wake: the top-of-loop check (src/main.py:440-481) that
runs calculate_and_announce_top_engaged immediately when a cycle is due.
cycleCloseInvoked marks the call itself. -/
def schedulerWakeCheck (dbInit : Bool) (db : DB) (nowDay : Nat) : DB × List Event :=
  if shouldRunNow db nowDay then
    let r := calculate_and_announce_top_engaged dbInit db
    (r.1, Event.cycleCloseInvoked :: r.2)
  else (db, [])

/-! ### message_counter (src/main.py:809-840) -/

/-- The sender of a message (message.from_user). -/
structure Sender where
  user_id : Int
  username : Option String
  full_name : String
deriving DecidableEq, Repr

/-- An inbound group message: its chat id and optional sender. -/
structure Msg where
  chat_id : Int
  sender : Option Sender
deriving DecidableEq, Repr

/-- username = user.username if user.username else None (src/main.py:820):
an empty username string is falsy and becomes None. -/
def normUsername (u : Sender) : Option String :=
  match u.username with
  | none => none
  | some s => if s.data.isEmpty then none else some s

/-- INSERT OR IGNORE INTO message_counts (src/main.py:826-829): append a
zero-count row for the sender unless one with their user_id exists. -/
def insertIfAbsent (l : List CounterRow) (u : Sender) : List CounterRow :=
  if l.any (fun r => decide (r.user_id = u.user_id)) then l
  else l ++ [⟨u.user_id, 0, normUsername u, some u.full_name⟩]

/-- The UPDATE of src/main.py:831-834 applied to one row: increment the
sender's count and refresh username and full_name, leave others alone. -/
def bumpRow (u : Sender) (r : CounterRow) : CounterRow :=
  if r.user_id = u.user_id then
    ⟨r.user_id, r.message_count + 1, normUsername u, some u.full_name⟩
  else r

/-- The two statements of the counting branch (src/main.py:826-834):
INSERT OR IGNORE a zero row for the sender, then UPDATE the sender's row,
incrementing message_count and refreshing username and full_name. -/
def countMessage (db : DB) (u : Sender) : DB :=
  ⟨(insertIfAbsent db.message_counts u).map (bumpRow u),
   db.deputies, db.history, db.settings⟩

/-- Model of message_counter (src/main.py:809-840): skip when the
database is not initialised or the sender is absent; count only when the
stored main group id is truthy and equals the message's chat id. -/
def message_counter (dbInit : Bool) (db : DB) (m : Msg) : DB :=
  if dbInit = false then db
  else
    match m.sender with
    | none => db
    | some u =>
      match getGroupChatId db with
      | none => db
      | some g => if g ≠ 0 ∧ m.chat_id = g then countMessage db u else db

/-! ### Concrete inputs used by counterexamples and witnesses -/

/-- A database with the main group set, one active counter row, one
deputy and an empty ledger. -/
def dbC1 : DB := ⟨[⟨1, 5, some "alice", some "Alice"⟩], [], [], [("main_group_chat_id", "123")]⟩

/-- A database whose marker is three weekly boundaries old (Tuesday
2025-09-16), with the main group set. -/
def dbC2 : DB :=
  ⟨[⟨1, 5, some "alice", some "Alice"⟩], [], [],
   [("main_group_chat_id", "123"), ("last_announced_week_start_date", "2025-09-16")]⟩

/-- The wake day of the C2 scenario: Thursday 2025-10-09 (the most
recent Tuesday boundary is 2025-10-07). -/
def nowC2 : Nat := dayNumber 2025 10 9

/-- A counter table whose single row has message_count 0 (the state
after a reset with no later activity). -/
def dbC3 : DB := ⟨[⟨7, 0, none, some "udi"⟩], [], [], []⟩

/-- A history row for the Tuesday 2025-10-07 boundary. -/
def rowC3 : HistoryRow := ⟨"2025-10-07", some 7, none, none, some "udi", none, none⟩

/-- A database with one counter row and no deputies. -/
def dbC5 : DB := ⟨[⟨1, 5, some "alice", some "Alice"⟩], [], [], []⟩

/-- A history row for the Tuesday 2025-10-07 boundary. -/
def rowC5 : HistoryRow := ⟨"2025-10-07", some 1, none, none, some "alice", none, none⟩

/-- The administrator list of the C6 scenario: two prior honorees (11
and 22), a moderator with an unrelated title, and an untitled admin. -/
def adminsC6 : List Admin :=
  [⟨11, "A", some "TOP ENGAGED 1"⟩, ⟨22, "B", some "Top engaged 2"⟩,
   ⟨33, "C", some "Moderator"⟩, ⟨44, "D", none⟩]

/-- A platform where demoting user 11 raises TelegramForbiddenError and
every other call succeeds. -/
def envC6 : TgEnv :=
  ⟨Except.ok adminsC6, fun uid => if uid = 11 then CallResult.forbidden else CallResult.ok⟩

/-- A database for the C6 scenario. -/
def dbC6 : DB := ⟨[⟨1, 5, some "alice", some "Alice"⟩], [], [], [("main_group_chat_id", "123")]⟩

/-- A database with one active counter row and one earlier ledger entry. -/
def dbC7 : DB :=
  ⟨[⟨1, 5, some "alice", some "Alice"⟩], [],
   [⟨"2025-09-30", some 2, none, none, some "bob", none, none⟩], []⟩

/-- A history row for the Tuesday 2025-10-07 boundary. -/
def rowC7 : HistoryRow := ⟨"2025-10-07", some 1, none, none, some "alice", none, none⟩

/-- A database whose persisted marker value is not a parsable date. -/
def dbC8 : DB :=
  ⟨[], [], [], [("main_group_chat_id", "123"), ("last_announced_week_start_date", "oops")]⟩

/-- A platform with a single prior honoree administrator. -/
def envC9 : TgEnv := ⟨Except.ok [⟨11, "A", some "TOP ENGAGED 1"⟩], fun _ => CallResult.ok⟩

/-- A database with activity, a deputy and the main group set. -/
def dbC9 : DB :=
  ⟨[⟨1, 5, some "alice", some "Alice"⟩], [77], [], [("main_group_chat_id", "123")]⟩

/-- A database with the main group set to 123 and one existing counter row. -/
def dbC10 : DB := ⟨[⟨1, 2, some "x", some "X"⟩], [], [], [("main_group_chat_id", "123")]⟩

/-- The sender of the C10 message, with changed username and full name. -/
def uC10 : Sender := ⟨1, some "x2", "X2"⟩

/-- A message from the main group by that sender. -/
def mC10 : Msg := ⟨123, some uC10⟩

/-! ## Helper lemmas -/

/-- Membership in an insertByCount result. -/
theorem mem_insertByCount {r a : CounterRow} {l : List CounterRow} :
    a ∈ insertByCount r l ↔ a = r ∨ a ∈ l := by
  induction l with
  | nil => simp [insertByCount]
  | cons x xs ih =>
    unfold insertByCount
    split
    · simp [List.mem_cons]
    · simp [List.mem_cons, ih]
      tauto

/-- The descending sort is a reordering: membership is preserved. -/
theorem mem_sortByCountDesc {a : CounterRow} {l : List CounterRow} :
    a ∈ sortByCountDesc l ↔ a ∈ l := by
  induction l with
  | nil => simp [sortByCountDesc]
  | cons x xs ih => simp [sortByCountDesc, mem_insertByCount, ih]

/-- Inserting never produces the empty list. -/
theorem insertByCount_ne_nil (r : CounterRow) (l : List CounterRow) :
    insertByCount r l ≠ [] := by
  cases l with
  | nil => simp [insertByCount]
  | cons x xs =>
    unfold insertByCount
    split <;> simp

/-- The sort is empty exactly when its input is. -/
theorem sortByCountDesc_eq_nil_iff (l : List CounterRow) :
    sortByCountDesc l = [] ↔ l = [] := by
  cases l with
  | nil => simp [sortByCountDesc]
  | cons x xs =>
    simp only [sortByCountDesc]
    constructor
    · intro h; exact absurd h (insertByCount_ne_nil _ _)
    · intro h; exact absurd h (by simp)

/-- Inserting into a count-descending list keeps it count-descending. -/
theorem pairwise_insertByCount {r : CounterRow} {l : List CounterRow}
    (h : l.Pairwise (fun a b => b.message_count ≤ a.message_count)) :
    (insertByCount r l).Pairwise (fun a b => b.message_count ≤ a.message_count) := by
  induction l with
  | nil => simp [insertByCount]
  | cons x xs ih =>
    rw [List.pairwise_cons] at h
    obtain ⟨hx, hxs⟩ := h
    unfold insertByCount
    split
    · rename_i hle
      rw [List.pairwise_cons]
      refine ⟨?_, by rw [List.pairwise_cons]; exact ⟨hx, hxs⟩⟩
      intro b hb
      rcases List.mem_cons.mp hb with hbx | hbxs
      · rw [hbx]; exact hle
      · exact le_trans (hx b hbxs) hle
    · rename_i hgt
      rw [List.pairwise_cons]
      refine ⟨?_, ih hxs⟩
      intro b hb
      rcases mem_insertByCount.mp hb with hbr | hbxs
      · rw [hbr]; omega
      · exact hx b hbxs

/-- The sort output is count-descending. -/
theorem pairwise_sortByCountDesc (l : List CounterRow) :
    (sortByCountDesc l).Pairwise (fun a b => b.message_count ≤ a.message_count) := by
  induction l with
  | nil => simp [sortByCountDesc]
  | cons x xs ih => exact pairwise_insertByCount ih

/-- Mapping a function that fixes every member is the identity. -/
theorem map_id_of_mem {α : Type} {l : List α} {f : α → α} (h : ∀ a ∈ l, f a = a) :
    l.map f = l := by
  induction l with
  | nil => rfl
  | cons x xs ih =>
    simp only [List.map_cons]
    rw [h x (by simp), ih (fun a ha => h a (by simp [ha]))]

/-- After an upsert, a row with the stored key is present. -/
theorem any_upsertHistory_self (h : List HistoryRow) (row : HistoryRow) :
    (upsertHistory h row).any (fun r => decide (r.week_start_date = row.week_start_date)) = true := by
  unfold upsertHistory
  split
  · rename_i hany
    obtain ⟨r, hr, hpr⟩ := List.any_eq_true.mp hany
    refine List.any_eq_true.mpr ⟨row, ?_, by simp⟩
    refine List.mem_map.mpr ⟨r, hr, ?_⟩
    rw [if_pos (of_decide_eq_true hpr)]
  · refine List.any_eq_true.mpr ⟨row, by simp, by simp⟩

/-- Every row of an upsert result that carries the stored key is the
stored row itself. -/
theorem mem_upsertHistory_key (h : List HistoryRow) (row r : HistoryRow)
    (hr : r ∈ upsertHistory h row) (hk : r.week_start_date = row.week_start_date) :
    r = row := by
  unfold upsertHistory at hr
  split at hr
  · obtain ⟨s, _, hs⟩ := List.mem_map.mp hr
    by_cases hsk : s.week_start_date = row.week_start_date
    · rw [if_pos hsk] at hs; exact hs.symm
    · rw [if_neg hsk] at hs; rw [hs] at hsk; exact absurd hk hsk
  · rcases List.mem_append.mp hr with h1 | h2
    · rename_i hany
      exfalso
      have : h.any (fun r => decide (r.week_start_date = row.week_start_date)) = true :=
        List.any_eq_true.mpr ⟨r, h1, decide_eq_true hk⟩
      exact hany this
    · simpa using h2

/-- Upserting the same row twice equals upserting it once. -/
theorem upsertHistory_idem (h : List HistoryRow) (row : HistoryRow) :
    upsertHistory (upsertHistory h row) row = upsertHistory h row := by
  have hany := any_upsertHistory_self h row
  have hkey : ∀ r ∈ upsertHistory h row,
      (if r.week_start_date = row.week_start_date then row else r) = r := by
    intro r hr
    by_cases hk : r.week_start_date = row.week_start_date
    · rw [if_pos hk]; exact (mem_upsertHistory_key h row r hr hk).symm
    · rw [if_neg hk]
  set l := upsertHistory h row with hl
  unfold upsertHistory
  rw [if_pos hany]
  exact map_id_of_mem hkey

/-- With key uniqueness and at least one key match, the key matches
exactly one row. -/
theorem countP_eq_one_of_nodup_key (h : List HistoryRow) (w : String)
    (hnd : (h.map (fun r => r.week_start_date)).Nodup)
    (hany : h.any (fun r => decide (r.week_start_date = w)) = true) :
    h.countP (fun r => decide (r.week_start_date = w)) = 1 := by
  induction h with
  | nil => simp at hany
  | cons x xs ih =>
    rw [List.map_cons, List.nodup_cons] at hnd
    obtain ⟨hx, hxs⟩ := hnd
    by_cases hw : x.week_start_date = w
    · have hzero : xs.countP (fun r => decide (r.week_start_date = w)) = 0 := by
        rw [List.countP_eq_zero]
        intro r hr
        simp only [decide_eq_true_eq]
        intro hrw
        exact hx (List.mem_map.mpr ⟨r, hr, by rw [hrw, hw]⟩)
      rw [List.countP_cons, hzero]
      simp [hw]
    · have hxsany : xs.any (fun r => decide (r.week_start_date = w)) = true := by
        rw [List.any_cons] at hany
        simpa [hw] using hany
      rw [List.countP_cons]
      simp [hw, ih hxs hxsany]

/-- Upserting into a key-unique ledger leaves exactly one row with the
stored key. -/
theorem countP_upsertHistory (h : List HistoryRow) (row : HistoryRow)
    (hnd : (h.map (fun r => r.week_start_date)).Nodup) :
    (upsertHistory h row).countP
      (fun r => decide (r.week_start_date = row.week_start_date)) = 1 := by
  unfold upsertHistory
  split
  · rename_i hany
    rw [List.countP_map]
    have hcongr : ∀ r ∈ h,
        (((fun r => decide (r.week_start_date = row.week_start_date)) ∘
          (fun r => if r.week_start_date = row.week_start_date then row else r)) r = true)
        ↔ ((fun r => decide (r.week_start_date = row.week_start_date)) r = true) := by
      intro r _
      by_cases hk : r.week_start_date = row.week_start_date
      · simp [hk]
      · simp [hk]
    rw [List.countP_congr hcongr]
    exact countP_eq_one_of_nodup_key h row.week_start_date hnd hany
  · rename_i hany
    rw [List.countP_append]
    have hzero : h.countP (fun r => decide (r.week_start_date = row.week_start_date)) = 0 := by
      rw [List.countP_eq_zero]
      intro r hr
      intro hdec
      exact hany (List.any_eq_true.mpr ⟨r, hr, hdec⟩)
    simp [hzero]

/-- The mixed-offset instant comparison of the scheduler is, on day
numbers, non-strict comparison (the marker's LMT midnight precedes the
boundary's +03 midnight of the same date by 412 seconds). -/
theorem markerBeforeCws_iff (d c : Nat) : markerBeforeCws d c = true ↔ d ≤ c := by
  unfold markerBeforeCws lmtOffsetSec astOffsetSec
  rw [decide_eq_true_iff]
  omega

/-- calculate_and_announce_top_engaged never changes the database. -/
theorem calc_fst (b : Bool) (db : DB) :
    (calculate_and_announce_top_engaged b db).1 = db := by
  unfold calculate_and_announce_top_engaged
  split
  · rfl
  · split
    · rfl
    · split <;> rfl

/-- calculate_and_announce_top_engaged emits no events besides, at most,
the owner warning for a missing group id. -/
theorem calc_snd (b : Bool) (db : DB) :
    (calculate_and_announce_top_engaged b db).2 = [Event.notifyOwner]
    ∨ (calculate_and_announce_top_engaged b db).2 = [] := by
  unfold calculate_and_announce_top_engaged
  split
  · left; rfl
  · split
    · left; rfl
    · split
      · right; rfl
      · right; rfl

/-- A due marker (unset, or a day at or before the boundary) makes
should_run_now true. -/
theorem shouldRunNow_of_due (db : DB) (nowDay : Nat)
    (h : lastAnnouncedDay db = none
      ∨ ∃ d, lastAnnouncedDay db = some d ∧ d ≤ currentWeekStart nowDay) :
    shouldRunNow db nowDay = true := by
  unfold shouldRunNow
  have h1 : decide (currentWeekStart nowDay ≤ nowDay) = true := by
    apply decide_eq_true
    unfold currentWeekStart
    exact Nat.sub_le _ _
  rw [h1, Bool.true_and]
  rcases h with hnone | ⟨d, hd, hlt⟩
  · rw [hnone]
  · rw [hd]
    exact (markerBeforeCws_iff d (currentWeekStart nowDay)).mpr hlt

/-- When a cycle is due, the wake invokes the cycle close exactly once
and leaves the whole database (the ledger in particular) unchanged. -/
theorem wake_invokes_once (dbInit : Bool) (db : DB) (nowDay : Nat)
    (h : shouldRunNow db nowDay = true) :
    (schedulerWakeCheck dbInit db nowDay).2.countP
        (fun e => decide (e = Event.cycleCloseInvoked)) = 1
    ∧ (schedulerWakeCheck dbInit db nowDay).1 = db := by
  unfold schedulerWakeCheck
  rw [h]
  simp only [if_true]
  constructor
  · rw [List.countP_cons]
    rcases calc_snd dbInit db with h2 | h2 <;> rw [h2] <;> decide
  · exact calc_fst dbInit db

/-! ## Claim C1 -/

/-- C1: the claim states that every invocation of
calculate_and_announce_top_engaged with the main group id set and the
database initialised performs the full cycle-close procedure (snapshot,
rank, reconcile, ledger upsert, counter reset, marker write,
notifications).  The code does none of that: the function body ends
after its two guard checks (src/main.py:170), so the invocation returns
the database unchanged and emits no event at all.  The cycle-close code
sits unreachable in demote_old_top_engaged, which no caller invokes.
This theorem evaluates the code on any failing input: status code_bug. -/
theorem C1_calculate_performs_no_cycle_close (db : DB) (g : Int)
    (h1 : getGroupChatId db = some g) (h2 : g ≠ 0) :
    calculate_and_announce_top_engaged true db = (db, []) := by
  unfold calculate_and_announce_top_engaged
  rw [h1]
  simp [h2]

/-- C1 witness: the failing input dbC1 (group id 123 set, database
initialised, one active counter row): the invocation is a no-op. -/
theorem C1_witness :
    calculate_and_announce_top_engaged true dbC1 = (dbC1, [])
    ∧ dbC1.message_counts ≠ [] :=
  ⟨C1_calculate_performs_no_cycle_close dbC1 123 (by decide) (by decide), by decide⟩

/-! ## Claim C2 -/

/-- C2: the claim states that a wake with the marker unset or strictly
before the most recent Tuesday-00:00 boundary runs exactly one cycle
close and records the History Ledger entry under the most recent
boundary date.  The first half holds: the wake invokes the close exactly
once however many boundaries were missed.  The second half fails: the
invoked calculate_and_announce_top_engaged is truncated and writes
nothing, so the ledger is unchanged — no entry at all is recorded under
the boundary date (and the detached persistence code of
demote_old_top_engaged would key the row by the run date, src/main.py:227,
not the boundary).  Status code_bug. -/
theorem C2_wake_invokes_once_but_records_no_ledger_entry (dbInit : Bool) (db : DB) (nowDay : Nat)
    (h : lastAnnouncedDay db = none
      ∨ ∃ d, lastAnnouncedDay db = some d ∧ d < currentWeekStart nowDay) :
    (schedulerWakeCheck dbInit db nowDay).2.countP
        (fun e => decide (e = Event.cycleCloseInvoked)) = 1
    ∧ (schedulerWakeCheck dbInit db nowDay).1.history = db.history := by
  have hdue : shouldRunNow db nowDay = true := by
    apply shouldRunNow_of_due
    rcases h with hnone | ⟨d, hd, hlt⟩
    · exact Or.inl hnone
    · exact Or.inr ⟨d, hd, Nat.le_of_lt hlt⟩
  obtain ⟨h1, h2⟩ := wake_invokes_once dbInit db nowDay hdue
  exact ⟨h1, by rw [h2]⟩

/-- C2 witness: marker 2025-09-16 (three boundaries back), wake on
Thursday 2025-10-09 whose boundary is Tuesday 2025-10-07: one
invocation, ledger untouched. -/
theorem C2_witness :
    (schedulerWakeCheck true dbC2 nowC2).2.countP
        (fun e => decide (e = Event.cycleCloseInvoked)) = 1
    ∧ (schedulerWakeCheck true dbC2 nowC2).1.history = dbC2.history :=
  C2_wake_invokes_once_but_records_no_ledger_entry true dbC2 nowC2
    (Or.inr ⟨dayNumber 2025 9 16, by decide, by decide⟩)

/-! ## Claim C8 -/

/-- C8: a persisted schedule value that does not parse as a date is
treated as unset — the strptime ValueError is caught at
src/main.py:451-453 and the marker becomes None, never a fatal error —
which makes the catch-up condition hold, so the wake runs a cycle close.
Status confirmed (the modelled scheduler step is total; the forced
invocation is exactly one). -/
theorem C8_malformed_marker_forces_catch_up (db : DB) (nowDay : Nat) (s : String)
    (h1 : getSetting db "last_announced_week_start_date" = some s)
    (h2 : parseDateYMD s = none) :
    lastAnnouncedDay db = none
    ∧ shouldRunNow db nowDay = true
    ∧ (schedulerWakeCheck true db nowDay).2.countP
        (fun e => decide (e = Event.cycleCloseInvoked)) = 1 := by
  have hnone : lastAnnouncedDay db = none := by
    unfold lastAnnouncedDay
    rw [h1]
    exact h2
  have hdue : shouldRunNow db nowDay = true := shouldRunNow_of_due db nowDay (Or.inl hnone)
  exact ⟨hnone, hdue, (wake_invokes_once true db nowDay hdue).1⟩

/-- C8 witness: the stored marker value "oops" does not parse; the wake
treats it as unset and runs the cycle close once. -/
theorem C8_witness :
    lastAnnouncedDay dbC8 = none
    ∧ shouldRunNow dbC8 nowC2 = true
    ∧ (schedulerWakeCheck true dbC8 nowC2).2.countP
        (fun e => decide (e = Event.cycleCloseInvoked)) = 1 :=
  C8_malformed_marker_forces_catch_up dbC8 nowC2 "oops" (by decide) (by decide)

/-! ## Claim C4 -/

/-- C4 counterexample: the claim states that every capability flag in
the final promote call on a winner is false.  At winner position 0,
user 5, the final call of the promotion sequence carries stripFlags,
whose can_invite_users flag is true (src/main.py:330) — so the claim as
stated is false. -/
theorem C4_counterexample :
    (promoteWinner 0 5).getLast? = some (Event.promoteCall 5 stripFlags CallResult.ok)
    ∧ stripFlags.can_invite_users = true := by
  constructor <;> rfl

/-- C4 amended: each winner position i < 3 gets the three-call sequence
grant, position-specific title, final promote; the titles of distinct
positions are distinct; and in the final call every capability flag is
false except can_invite_users, which the source keeps true. -/
theorem C4_promote_end_state (i : Nat) (uid : Int) (h : i < 3) :
    promoteWinner i uid =
      [Event.promoteCall uid grantFlags CallResult.ok,
       Event.setTitle uid (titles.getD i ""),
       Event.promoteCall uid stripFlags CallResult.ok]
    ∧ (∀ j, j < 3 → i ≠ j → titles.getD i "" ≠ titles.getD j "")
    ∧ stripFlags.can_manage_chat = false ∧ stripFlags.can_delete_messages = false
    ∧ stripFlags.can_manage_video_chats = false ∧ stripFlags.can_restrict_members = false
    ∧ stripFlags.can_promote_members = false ∧ stripFlags.can_change_info = false
    ∧ stripFlags.can_pin_messages = false ∧ stripFlags.can_post_messages = false
    ∧ stripFlags.can_invite_users = true := by
  refine ⟨rfl, ?_, rfl, rfl, rfl, rfl, rfl, rfl, rfl, rfl, rfl⟩
  intro j hj hne
  interval_cases i <;> interval_cases j <;> revert hne <;> decide

/-- C4 witness: position 0 versus position 1 have distinct titles. -/
theorem C4_witness :
    (0 : Nat) < 3 ∧ titles.getD 0 "" ≠ titles.getD 1 "" :=
  ⟨by decide, (C4_promote_end_state 0 5 (by decide)).2.1 1 (by decide) (by decide)⟩

/-! ## Claim C5 -/

/-- C5 counterexample: the claim states the marker is written only after
both the ledger write and the counter reset have completed.  In the
persistence sequence run on dbC5/rowC5, the marker write occurs strictly
before the counter reset (src/main.py:391-396 precede 398-402), so the
claim as stated is false. -/
theorem C5_counterexample :
    occursStrictlyBefore (Event.markerWrite "2025-10-07") Event.counterReset
      (cycleClosePersistTail dbC5 rowC5).2 = true
    ∧ Event.counterReset ∈ (cycleClosePersistTail dbC5 rowC5).2 := by
  constructor <;> decide

/-- C5 amended: in every run of the persistence sequence the marker
write comes after the History Ledger write but before the counter
reset. -/
theorem C5_marker_after_ledger_before_reset (db : DB) (row : HistoryRow) :
    occursStrictlyBefore (Event.historyUpsert row.week_start_date)
      (Event.markerWrite row.week_start_date) (cycleClosePersistTail db row).2 = true
    ∧ occursStrictlyBefore (Event.markerWrite row.week_start_date)
      Event.counterReset (cycleClosePersistTail db row).2 = true := by
  constructor <;> simp [cycleClosePersistTail, occursStrictlyBefore]

/-! ## Claim C9 -/

/-- C9 counterexample: the claim states that after the NameError of the
announcement step is caught, the history upsert, marker write, counter
reset and owner/deputy notifications still execute.  On the concrete
input envC9/dbC9 the run terminates with an uncaught NameError and its
trace contains none of those persistence events, so the claim as stated
is false. -/
theorem C9_counterexample :
    (demote_old_top_engaged envC9 dbC9 "2025-10-07").err = some PyError.nameError
    ∧ (demote_old_top_engaged envC9 dbC9 "2025-10-07").trace.any isPersistEvent = false
    ∧ (demote_old_top_engaged envC9 dbC9 "2025-10-07").db = dbC9 := by
  refine ⟨rfl, by decide, rfl⟩

/-- The demote phase emits no event besides the administrator
enumeration and demote calls of the form promoteCall uid demoteFlags res. -/
theorem demoteEventFor_shape (env : TgEnv) (a : Admin) (e : Event)
    (h : demoteEventFor env a = some e) :
    e = Event.promoteCall a.user_id demoteFlags (env.demoteResult a.user_id) := by
  obtain ⟨uid, fn, title⟩ := a
  cases title with
  | none => simp [demoteEventFor] at h
  | some t =>
    simp only [demoteEventFor] at h
    by_cases hb : (!t.data.isEmpty && isHonoreeTitle t) = true
    · rw [if_pos hb] at h
      simpa using h.symm
    · rw [if_neg hb] at h
      simp at h

/-- The demote phase satisfies any event predicate that holds nowhere on
enumeration events and demote calls. -/
theorem demotePhase_any_false (env : TgEnv) (p : Event → Bool)
    (hga : p Event.getAdmins = false)
    (hdc : ∀ uid res, p (Event.promoteCall uid demoteFlags res) = false) :
    (demotePhase env).any p = false := by
  unfold demotePhase
  cases env.admins with
  | error u => simp [hga]
  | ok l =>
    rw [List.any_cons, hga, Bool.false_or]
    rw [List.any_eq_false]
    intro e he
    obtain ⟨a, _, hfa⟩ := List.mem_filterMap.mp he
    rw [demoteEventFor_shape env a e hfa, hdc]
    simp

/-- C9 amended: in every invocation of demote_old_top_engaged the
announcement step raises NameError because main_group_id is unbound in
that scope; the generic handler catches it, but the handler's own log
formatting (src/main.py:368) evaluates the same unbound name and raises
a second NameError that escapes the function.  Hence no announcement or
winner promotion ever succeeds, and the history upsert, marker write,
counter reset and owner/deputy notifications never execute: the
database is returned unchanged and the run ends in NameError. -/
theorem C9_name_error_aborts_persistence (env : TgEnv) (db : DB) (today : String) :
    (demote_old_top_engaged env db today).err = some PyError.nameError
    ∧ (demote_old_top_engaged env db today).db = db
    ∧ (demote_old_top_engaged env db today).trace.any isPersistEvent = false
    ∧ (demote_old_top_engaged env db today).trace.any isWinnerPromotionEvent = false := by
  refine ⟨rfl, rfl, ?_, ?_⟩
  · unfold demote_old_top_engaged
    simp only [List.any_append, List.any_cons, List.any_nil]
    rw [demotePhase_any_false env isPersistEvent rfl (fun _ _ => rfl)]
    rfl
  · unfold demote_old_top_engaged
    simp only [List.any_append, List.any_cons, List.any_nil]
    rw [demotePhase_any_false env isWinnerPromotionEvent rfl (fun _ _ => rfl)]
    rfl

/-- C9 witness for the amended statement, at the concrete input envC6
(two honorees, one failing demotion). -/
theorem C9_witness :
    (demote_old_top_engaged envC6 dbC6 "2025-10-07").err = some PyError.nameError
    ∧ (demote_old_top_engaged envC6 dbC6 "2025-10-07").db = dbC6 :=
  ⟨(C9_name_error_aborts_persistence envC6 dbC6 "2025-10-07").1,
   (C9_name_error_aborts_persistence envC6 dbC6 "2025-10-07").2.1⟩

/-! ## Claim C3 -/

/-- C3 counterexample: the claim states winners contain only
participants with count > 0 and that an all-zero counter state yields an
empty winners list.  On dbC3 every count is zero, yet the snapshot that
feeds history and promotion is the non-empty list holding the zero-count
row of user 7 — so the claim as stated is false. -/
theorem C3_counterexample :
    (∀ r ∈ dbC3.message_counts, r.message_count = 0)
    ∧ snapshotTop3 dbC3 = [⟨7, 0, none, some "udi"⟩] := by
  constructor
  · decide
  · rfl

/-- C3 amended: the winners produced at cycle close are the first three
counter rows sorted by count descending with no zero-count filter (so
zero-count rows can appear); the winners list is empty exactly when the
counter table is empty; and the persistence sequence still records a
ledger row for the cycle whatever the winners are.  (The read-only
/top_this_week handler, src/main.py:599, does exclude zero counts.) -/
theorem C3_winners_unfiltered (db : DB) (row : HistoryRow) :
    (snapshotTop3 db = [] ↔ db.message_counts = [])
    ∧ (snapshotTop3 db).length ≤ 3
    ∧ (∀ r, r ∈ snapshotTop3 db → r ∈ db.message_counts)
    ∧ (snapshotTop3 db).Pairwise (fun a b => b.message_count ≤ a.message_count)
    ∧ (cycleClosePersistTail db row).1.history.any
        (fun r => decide (r.week_start_date = row.week_start_date)) = true := by
  refine ⟨?_, ?_, ?_, ?_, ?_⟩
  · unfold snapshotTop3
    rw [List.take_eq_nil_iff]
    simp [sortByCountDesc_eq_nil_iff]
  · have h : (snapshotTop3 db).length = min 3 (sortByCountDesc db.message_counts).length := by
      unfold snapshotTop3
      exact List.length_take _ _
    omega
  · intro r hr
    unfold snapshotTop3 at hr
    exact mem_sortByCountDesc.mp (List.take_subset 3 _ hr)
  · unfold snapshotTop3
    exact List.Pairwise.sublist (List.take_sublist 3 _) (pairwise_sortByCountDesc _)
  · exact any_upsertHistory_self db.history row

/-- C3 witness for the amended statement: the zero-count snapshot row of
dbC3 is indeed drawn from the counter table. -/
theorem C3_witness :
    (⟨7, 0, none, some "udi"⟩ : CounterRow) ∈ dbC3.message_counts :=
  (C3_winners_unfiltered dbC3 rowC3).2.2.1 _ (by decide)

/-! ## Claim C6 -/

/-- When the administrator enumeration succeeds, the demote phase is the
enumeration followed by the demote calls of the honoree admins. -/
theorem demotePhase_ok (env : TgEnv) (admins : List Admin)
    (h : env.admins = Except.ok admins) :
    demotePhase env = Event.getAdmins :: admins.filterMap (demoteEventFor env) := by
  unfold demotePhase
  rw [h]

/-- An honoree administrator always yields a demote call carrying that
administrator's own outcome. -/
theorem demoteEventFor_of_honoree (env : TgEnv) (a : Admin)
    (h : isHonoreeAdmin a = true) :
    demoteEventFor env a =
      some (Event.promoteCall a.user_id demoteFlags (env.demoteResult a.user_id)) := by
  obtain ⟨uid, fn, title⟩ := a
  cases title with
  | none => simp [isHonoreeAdmin] at h
  | some t =>
    simp only [isHonoreeAdmin] at h
    simp [demoteEventFor, h]

/-- C6: in every reconciliation pass whose administrator enumeration
succeeds, every prior-cycle honoree receives their demote call with
their own outcome — whatever the outcomes of the other participants'
calls are, so one demotion failure never aborts the rest — and the run
contains no winner-promotion event at all, so a fortiori every demotion
precedes any promotion (in the source the demote loop, src/main.py:183-213,
textually precedes the promotion block, src/main.py:289-347, and the
promotion block is never reached).  Status confirmed. -/
theorem C6_demote_isolated_and_before_promotion (env : TgEnv) (db : DB) (today : String)
    (admins : List Admin) (h : env.admins = Except.ok admins) :
    (∀ a, a ∈ admins → isHonoreeAdmin a = true →
        Event.promoteCall a.user_id demoteFlags (env.demoteResult a.user_id)
          ∈ (demote_old_top_engaged env db today).trace)
    ∧ (∀ e, e ∈ (demote_old_top_engaged env db today).trace →
        isWinnerPromotionEvent e = false) := by
  constructor
  · intro a ha hh
    show _ ∈ demotePhase env ++ _
    apply List.mem_append_left
    rw [demotePhase_ok env admins h]
    exact List.mem_cons_of_mem _
      (List.mem_filterMap.mpr ⟨a, ha, demoteEventFor_of_honoree env a hh⟩)
  · intro e he
    have hall : (demote_old_top_engaged env db today).trace.any isWinnerPromotionEvent = false := by
      show (demotePhase env ++ [Event.snapshotTop (snapshotTop3 db), Event.announceNameError]).any _ = false
      simp only [List.any_append, List.any_cons, List.any_nil]
      rw [demotePhase_any_false env isWinnerPromotionEvent rfl (fun _ _ => rfl)]
      rfl
    simpa using List.any_eq_false.mp hall e he

/-- C6 witness: with envC6 (demoting user 11 raises Forbidden) both
honorees 11 and 22 still get their demote calls. -/
theorem C6_witness :
    Event.promoteCall 22 demoteFlags CallResult.ok
      ∈ (demote_old_top_engaged envC6 dbC6 "2025-10-07").trace
    ∧ Event.promoteCall 11 demoteFlags CallResult.forbidden
      ∈ (demote_old_top_engaged envC6 dbC6 "2025-10-07").trace :=
  ⟨(C6_demote_isolated_and_before_promotion envC6 dbC6 "2025-10-07" adminsC6 rfl).1
      ⟨22, "B", some "Top engaged 2"⟩ (by decide) (by decide),
   (C6_demote_isolated_and_before_promotion envC6 dbC6 "2025-10-07" adminsC6 rfl).1
      ⟨11, "A", some "TOP ENGAGED 1"⟩ (by decide) (by decide)⟩

/-! ## Claim C7 -/

/-- C7: running the persistence sequence of the cycle close
(src/main.py:375-402, the code the claim cites) twice for the same
boundary row is idempotent: with the week_start_date primary key unique,
exactly one ledger row carries that cycle start after the first run, the
second run replaces rather than duplicates (the ledger is unchanged),
and every counter is zero after each of the two runs.  Status confirmed
for this sequence (in actual runs it is unreachable: see C9). -/
theorem C7_persist_twice_idempotent (db : DB) (row : HistoryRow)
    (hnd : (db.history.map (fun r => r.week_start_date)).Nodup) :
    ((cycleClosePersistTail db row).1.history.countP
        (fun r => decide (r.week_start_date = row.week_start_date)) = 1)
    ∧ ((cycleClosePersistTail (cycleClosePersistTail db row).1 row).1.history
        = (cycleClosePersistTail db row).1.history)
    ∧ (∀ r, r ∈ (cycleClosePersistTail db row).1.message_counts → r.message_count = 0)
    ∧ (∀ r, r ∈ (cycleClosePersistTail (cycleClosePersistTail db row).1 row).1.message_counts →
        r.message_count = 0) := by
  refine ⟨?_, ?_, ?_, ?_⟩
  · exact countP_upsertHistory db.history row hnd
  · exact upsertHistory_idem db.history row
  · intro r hr
    have hr2 : r ∈ db.message_counts.map
        (fun s => (⟨s.user_id, 0, s.username, s.full_name⟩ : CounterRow)) := hr
    obtain ⟨s, _, hs⟩ := List.mem_map.mp hr2
    rw [← hs]
  · intro r hr
    have hr2 : r ∈ ((cycleClosePersistTail db row).1.message_counts).map
        (fun s => (⟨s.user_id, 0, s.username, s.full_name⟩ : CounterRow)) := hr
    obtain ⟨s, _, hs⟩ := List.mem_map.mp hr2
    rw [← hs]

/-- C7 witness: on dbC7 (one earlier ledger entry, one active counter)
and the 2025-10-07 row, the double run keeps exactly one row for the
boundary and the second run changes nothing. -/
theorem C7_witness :
    ((cycleClosePersistTail dbC7 rowC7).1.history.countP
        (fun r => decide (r.week_start_date = rowC7.week_start_date)) = 1)
    ∧ ((cycleClosePersistTail (cycleClosePersistTail dbC7 rowC7).1 rowC7).1.history
        = (cycleClosePersistTail dbC7 rowC7).1.history) :=
  ⟨(C7_persist_twice_idempotent dbC7 rowC7 (by decide)).1,
   (C7_persist_twice_idempotent dbC7 rowC7 (by decide)).2.1⟩

/-! ## Claim C10 -/

/-- bumpRow never changes the user id. -/
theorem bumpRow_user_id (u : Sender) (r : CounterRow) :
    (bumpRow u r).user_id = r.user_id := by
  unfold bumpRow
  split <;> rfl

/-- bumpRow fixes rows of other users. -/
theorem bumpRow_ne (u : Sender) (r : CounterRow) (h : r.user_id ≠ u.user_id) :
    bumpRow u r = r := by
  unfold bumpRow
  rw [if_neg h]

/-- insertIfAbsent keeps every existing row. -/
theorem mem_insertIfAbsent_of_mem {l : List CounterRow} {u : Sender} {r : CounterRow}
    (h : r ∈ l) : r ∈ insertIfAbsent l u := by
  unfold insertIfAbsent
  split
  · exact h
  · exact List.mem_append_left _ h

/-- Every row of an insertIfAbsent result is an original row or the
fresh zero row of the sender. -/
theorem mem_insertIfAbsent_elim {l : List CounterRow} {u : Sender} {r : CounterRow}
    (h : r ∈ insertIfAbsent l u) :
    r ∈ l ∨ r = ⟨u.user_id, 0, normUsername u, some u.full_name⟩ := by
  unfold insertIfAbsent at h
  split at h
  · exact Or.inl h
  · rcases List.mem_append.mp h with h1 | h2
    · exact Or.inl h1
    · exact Or.inr (by simpa using h2)

/-- What the counting branch does to the database. -/
theorem countMessage_spec (db : DB) (u : Sender) :
    (countMessage db u).deputies = db.deputies
    ∧ (countMessage db u).history = db.history
    ∧ (countMessage db u).settings = db.settings
    ∧ (∀ r, r.user_id ≠ u.user_id →
        (r ∈ (countMessage db u).message_counts ↔ r ∈ db.message_counts))
    ∧ (∀ r, r ∈ db.message_counts → r.user_id = u.user_id →
        (⟨u.user_id, r.message_count + 1, normUsername u, some u.full_name⟩ : CounterRow)
          ∈ (countMessage db u).message_counts)
    ∧ ((∀ r, r ∈ db.message_counts → r.user_id ≠ u.user_id) →
        (⟨u.user_id, 1, normUsername u, some u.full_name⟩ : CounterRow)
          ∈ (countMessage db u).message_counts)
    ∧ (∀ r, r ∈ (countMessage db u).message_counts → r.user_id = u.user_id →
        r.username = normUsername u ∧ r.full_name = some u.full_name ∧ 0 < r.message_count) := by
  refine ⟨rfl, rfl, rfl, ?_, ?_, ?_, ?_⟩
  · intro r hne
    constructor
    · intro hr
      have hr2 : r ∈ (insertIfAbsent db.message_counts u).map (bumpRow u) := hr
      obtain ⟨s, hsmem, hsb⟩ := List.mem_map.mp hr2
      have hsne : s.user_id ≠ u.user_id := by
        intro he
        apply hne
        rw [← hsb, bumpRow_user_id u s, he]
      rw [bumpRow_ne u s hsne] at hsb
      rw [← hsb]
      rcases mem_insertIfAbsent_elim hsmem with h1 | h2
      · exact h1
      · exfalso
        rw [h2] at hsne
        exact hsne rfl
    · intro hr
      have heq : bumpRow u r = r := bumpRow_ne u r hne
      have hmem := mem_insertIfAbsent_of_mem (u := u) hr
      show r ∈ (insertIfAbsent db.message_counts u).map (bumpRow u)
      exact heq ▸ List.mem_map_of_mem (bumpRow u) hmem
  · intro r hr he
    have hmem := mem_insertIfAbsent_of_mem (u := u) hr
    have hb : bumpRow u r
        = ⟨u.user_id, r.message_count + 1, normUsername u, some u.full_name⟩ := by
      unfold bumpRow
      rw [if_pos he, he]
    show _ ∈ (insertIfAbsent db.message_counts u).map (bumpRow u)
    exact hb ▸ List.mem_map_of_mem (bumpRow u) hmem
  · intro hall
    have hany : db.message_counts.any (fun r => decide (r.user_id = u.user_id)) = false := by
      rw [List.any_eq_false]
      intro r hr
      simp [hall r hr]
    have hins : insertIfAbsent db.message_counts u
        = db.message_counts ++ [⟨u.user_id, 0, normUsername u, some u.full_name⟩] := by
      unfold insertIfAbsent
      rw [hany]
      simp
    have hmem : (⟨u.user_id, 0, normUsername u, some u.full_name⟩ : CounterRow)
        ∈ insertIfAbsent db.message_counts u := by
      rw [hins]
      simp
    have hb : bumpRow u ⟨u.user_id, 0, normUsername u, some u.full_name⟩
        = ⟨u.user_id, 1, normUsername u, some u.full_name⟩ := by
      unfold bumpRow
      simp
    show _ ∈ (insertIfAbsent db.message_counts u).map (bumpRow u)
    exact hb ▸ List.mem_map_of_mem (bumpRow u) hmem
  · intro r hr he
    have hr2 : r ∈ (insertIfAbsent db.message_counts u).map (bumpRow u) := hr
    obtain ⟨s, hsmem, hsb⟩ := List.mem_map.mp hr2
    by_cases hsu : s.user_id = u.user_id
    · have hb : bumpRow u s
          = ⟨s.user_id, s.message_count + 1, normUsername u, some u.full_name⟩ := by
        unfold bumpRow
        rw [if_pos hsu]
      rw [hb] at hsb
      rw [← hsb]
      exact ⟨rfl, rfl, by simp⟩
    · rw [bumpRow_ne u s hsu] at hsb
      rw [← hsb] at he
      exact absurd he hsu

/-- C10: the message counter mutates message_counts only for a message
whose chat id equals the stored (truthy) main group id and whose sender
is present; a message before database initialisation, without sender,
without a stored group id, with a falsy stored id, or from another chat
leaves the whole database unchanged; a counted message touches only the
sender's row, incrementing its count by one (to 1 when the row is
fresh) and refreshing its username and full name, and leaves the other
tables and every other user's rows unchanged.  Status confirmed. -/
theorem C10_message_counter_frame (db : DB) (m : Msg) :
    (message_counter false db m = db)
    ∧ (m.sender = none → message_counter true db m = db)
    ∧ (getGroupChatId db = none → message_counter true db m = db)
    ∧ (∀ u g, m.sender = some u → getGroupChatId db = some g → (g = 0 ∨ m.chat_id ≠ g) →
        message_counter true db m = db)
    ∧ (∀ u g, m.sender = some u → getGroupChatId db = some g → g ≠ 0 → m.chat_id = g →
        (message_counter true db m).deputies = db.deputies
        ∧ (message_counter true db m).history = db.history
        ∧ (message_counter true db m).settings = db.settings
        ∧ (∀ r, r.user_id ≠ u.user_id →
            (r ∈ (message_counter true db m).message_counts ↔ r ∈ db.message_counts))
        ∧ (∀ r, r ∈ db.message_counts → r.user_id = u.user_id →
            (⟨u.user_id, r.message_count + 1, normUsername u, some u.full_name⟩ : CounterRow)
              ∈ (message_counter true db m).message_counts)
        ∧ ((∀ r, r ∈ db.message_counts → r.user_id ≠ u.user_id) →
            (⟨u.user_id, 1, normUsername u, some u.full_name⟩ : CounterRow)
              ∈ (message_counter true db m).message_counts)
        ∧ (∀ r, r ∈ (message_counter true db m).message_counts → r.user_id = u.user_id →
            r.username = normUsername u ∧ r.full_name = some u.full_name
            ∧ 0 < r.message_count)) := by
  obtain ⟨chat, sender⟩ := m
  refine ⟨rfl, ?_, ?_, ?_, ?_⟩
  · intro hs
    cases sender with
    | none => rfl
    | some u2 => simp at hs
  · intro hgn
    cases sender with
    | none => rfl
    | some u2 => simp [message_counter, hgn]
  · intro u g hs hg hdisj
    cases sender with
    | none => simp at hs
    | some u2 =>
      have hu : u2 = u := by simpa using hs
      subst hu
      rcases hdisj with h0 | hne
      · simp [message_counter, hg, h0]
      · have hne2 : chat ≠ g := hne
        simp [message_counter, hg, hne2]
  · intro u g hs hg hg0 hc
    cases sender with
    | none => simp at hs
    | some u2 =>
      have hu : u2 = u := by simpa using hs
      subst hu
      have hc2 : chat = g := hc
      have hcc : message_counter true db ⟨chat, some u2⟩ = countMessage db u2 := by
        simp [message_counter, hg, hg0, hc2]
      rw [hcc]
      exact countMessage_spec db u2

/-- C10 witness: a main-group message from user 1 (stored count 2)
bumps that row to count 3 with refreshed names. -/
theorem C10_witness :
    (⟨1, 3, some "x2", some "X2"⟩ : CounterRow)
      ∈ (message_counter true dbC10 mC10).message_counts
    ∧ (message_counter true dbC10 mC10).history = dbC10.history :=
  ⟨(C10_message_counter_frame dbC10 mC10).2.2.2.2 uC10 123 rfl (by decide) (by decide) (by decide)
      |>.2.2.2.2.1 ⟨1, 2, some "x", some "X"⟩ (by decide) (by decide),
   ((C10_message_counter_frame dbC10 mC10).2.2.2.2 uC10 123 rfl (by decide) (by decide)
      (by decide)).2.1⟩

end TopBot
